import Mathlib

/-!
Shallow embedding of `src/server/server.js` (giri2002-deb/admin-backend).

The server exposes three JSON-file-backed record collections (gold, animal,
crops) with create / replace-by-id / delete-by-id handlers, two
whole-document JSON files (kccdata, kccahdata), and a set of user-profile
endpoints backed by a Supabase table `user_details`.

Records in the three collections are JSON objects; the handlers touch only
the identifying field (`id` for gold/animal, `crop_code` for crops), which
they stamp themselves.  We model a stored record as its identifying-field
value (`key : Int`, JS numbers from `parseInt`/`maxId+1`) together with an
opaque `payload : String` standing for all the other fields of the object.
A request body may carry its own value for the identifying field; the
handlers overwrite it, which we keep visible via `bodyKey`.
-/

namespace AdminBackend

/-- A record stored in one of the gold/animal/crops collection files.
`key` is the identifying field (`id` or `crop_code`); `payload` stands for
the remaining fields of the JSON object, which the handlers never touch. -/
structure Record where
  key : Int
  payload : String
  deriving Repr, DecidableEq

/-- A request body for create/replace: `bodyKey` is the value the body
supplies for the identifying field (if any); `payload` is the rest. -/
structure Body where
  bodyKey : Option Int
  payload : String
  deriving Repr, DecidableEq

/-- `newRecord.id = k` / `updatedRecord.crop_code = k`: stamping the
identifying field onto the body, overwriting whatever it supplied. -/
def stampKey (k : Int) (b : Body) : Record :=
  ⟨k, b.payload⟩

/-- `data.reduce((max, item) => (item.id > max ? item.id : max), 0)` from
the POST handlers (same shape for `crop_code` in the crops handler). -/
def maxKey (data : List Record) : Int :=
  data.foldl (fun m it => if it.key > m then it.key else m) 0

/-- JS `Array.prototype.findIndex`: index of the first element satisfying
`p`, or none. Used as `data.findIndex(item => item.id === id)`. -/
def findIndex (p : Record → Bool) : List Record → Option Nat
  | [] => none
  | x :: xs => if p x then some 0 else (findIndex p xs).map (· + 1)

/-- Responses the gold/animal/crops handlers produce on their non-500
paths: `res.json(record)`, `res.json({message})`, `res.status(201).json(record)`,
`res.status(404).json({error})`. -/
inductive HResp where
  | ok (record : Record)
  | okMsg (msg : String)
  | created (record : Record)
  | notFound (error : String)
  deriving Repr, DecidableEq

/-- The HTTP status attached to each response shape. -/
def HResp.status : HResp → Nat
  | .ok _ => 200
  | .okMsg _ => 200
  | .created _ => 201
  | .notFound _ => 404

/-- `app.post('/api/gold')` (lines 167-183), identically
`app.post('/api/animal')` (232-248) and, with `crop_code` as key,
`app.post('/api/crops')` (297-313): read the array, compute
`maxId = reduce(max, 0)`, stamp `maxId + 1`, push, write back, 201. -/
def createRecord (data : List Record) (b : Body) : HResp × List Record :=
  let r := stampKey (maxKey data + 1) b
  (.created r, data ++ [r])

/-- `app.put('/api/{gold|animal|crops}/:id')` (lines 185-202, 250-267,
315-332): find the first record whose key equals the parsed path id;
404 without writing if absent; otherwise stamp the body with the path id,
replace in place, write back.  The `Bool` records whether `writeJson`
ran. -/
def putRecord (notFoundMsg : String) (data : List Record) (k : Int) (b : Body) :
    HResp × List Record × Bool :=
  match findIndex (fun it => it.key == k) data with
  | none => (.notFound notFoundMsg, data, false)
  | some i =>
      let r := stampKey k b
      (.ok r, data.set i r, true)

/-- `app.delete('/api/{gold|animal|crops}/:id')` (lines 204-219, 269-284,
334-349): find the first record whose key equals the parsed path id;
404 without writing if absent; otherwise `splice(index, 1)` and write
back.  The `Bool` records whether `writeJson` ran. -/
def deleteRecord (notFoundMsg okMsg : String) (data : List Record) (k : Int) :
    HResp × List Record × Bool :=
  match findIndex (fun it => it.key == k) data with
  | none => (.notFound notFoundMsg, data, false)
  | some i => (.okMsg okMsg, data.eraseIdx i, true)

/-- `app.put('/api/gold/:id')` with its collection-specific 404 message. -/
def putGold (data : List Record) (k : Int) (b : Body) : HResp × List Record × Bool :=
  putRecord "Record not found" data k b

/-- `app.put('/api/animal/:id')`. -/
def putAnimal (data : List Record) (k : Int) (b : Body) : HResp × List Record × Bool :=
  putRecord "Animal record not found" data k b

/-- `app.put('/api/crops/:id')` (the key being `crop_code`). -/
def putCrops (data : List Record) (k : Int) (b : Body) : HResp × List Record × Bool :=
  putRecord "Crop record not found" data k b

/-- `app.delete('/api/gold/:id')`. -/
def deleteGold (data : List Record) (k : Int) : HResp × List Record × Bool :=
  deleteRecord "Record not found" "Record deleted successfully" data k

/-- `app.delete('/api/animal/:id')`. -/
def deleteAnimal (data : List Record) (k : Int) : HResp × List Record × Bool :=
  deleteRecord "Animal record not found" "Animal record deleted successfully" data k

/-- `app.delete('/api/crops/:id')`. -/
def deleteCrops (data : List Record) (k : Int) : HResp × List Record × Bool :=
  deleteRecord "Crop record not found" "Crop record deleted successfully" data k

/-- Run a sequence of creates against a collection, collecting the
responses in order (the file content threads through). -/
def runCreates : List Body → List Record → List HResp
  | [], _ => []
  | b :: bs, data =>
      let r := createRecord data b
      r.1 :: runCreates bs r.2

/-- The operations of one collection's handler set that mutate the file,
for stating invariants over arbitrary sequential histories. -/
inductive Op where
  | create (b : Body)
  | put (k : Int) (b : Body)
  | del (k : Int)
  deriving Repr, DecidableEq

/-- The file content after one handler call (the message strings do not
affect the stored data, so the three collections share this). -/
def applyOp (data : List Record) : Op → List Record
  | .create b => (createRecord data b).2
  | .put k b => (putRecord "Record not found" data k b).2.1
  | .del k => (deleteRecord "Record not found" "Record deleted successfully" data k).2.1

/-- The file content after a sequence of handler calls. -/
def applyOps (ops : List Op) (data : List Record) : List Record :=
  ops.foldl applyOp data

/-- A collection file on disk: `none` when the file is absent. -/
abbrev FileState (α : Type) : Type := Option α

/-- The loop body of `initializeFiles` (lines 45-52 and 70-75), for one
path: if the file does not exist, `fs.writeJson(path, [], {spaces: 2})`
creates it holding the empty array; an existing file is left as it is. -/
def initCollectionFile (fs : FileState (List Record)) : FileState (List Record) :=
  match fs with
  | none => some []
  | some d => some d

/-- The distinct places one collection's JSON file can live (shown for
gold; the other four collections are identical): `/tmp/gold.json` (the
Vercel `baseDir`, line 23), `__dirname/gold.json` (the local `baseDir`),
and `__dirname/components/data/gold.json` (the path the local branch of
`initializeFiles` targets, lines 62-68). -/
structure DiskFiles where
  tmpFile : FileState (List Record)
  dirFile : FileState (List Record)
  dataDirFile : FileState (List Record)
  deriving DecidableEq

/-- `dataFilePath = path.join(baseDir, 'gold.json')` with
`baseDir = isVercel ? '/tmp' : __dirname` (lines 22-26): the file every
gold handler reads and writes. -/
def dataFileContent (isVercel : Bool) (fs : DiskFiles) : FileState (List Record) :=
  if isVercel then fs.tmpFile else fs.dirFile

/-- `initializeFiles` (lines 33-81), restricted to the gold collection:
on Vercel it creates `dataFilePath` (`/tmp/gold.json`) with `[]` if
absent; locally it instead creates
`__dirname/components/data/gold.json` if absent — a path none of the
handlers read — and leaves `__dirname/gold.json` alone. -/
def initFilesGold (isVercel : Bool) (fs : DiskFiles) : DiskFiles :=
  if isVercel then { fs with tmpFile := initCollectionFile fs.tmpFile }
  else { fs with dataDirFile := initCollectionFile fs.dataDirFile }

/-- `app.get('/api/{gold|animal|crops}')` (lines 157-165, 222-230,
287-295): `fs.readJson` the file and return it with 200; a missing or
unreadable file throws, which the catch maps to a 500 error body. -/
def getCollection (fs : FileState (List Record)) : Except String (List Record) :=
  match fs with
  | some d => .ok d
  | none => .error "Failed to read data"

-- ================= KCC / KCC-AH whole-document routes =================

/-- `app.post('/api/kccdata')` (lines 139-154) and identically
`app.post('/api/kccahdata')` (110-125): `fs.writeJson(path, req.body)`
with no read of the prior content, then 201 with an ack message.  The
document type is abstract: any JSON value round-trips through
`writeJson`/`readJson`. -/
def postKccdata {α : Type} (_fs : FileState α) (newData : α) : (Nat × String) × FileState α :=
  ((201, "Data overwritten successfully."), some newData)

/-- `app.get('/api/kccdata')` (lines 128-137) and identically
`app.get('/api/kccahdata')` (99-108): `fs.readJson` and 200, or a 500
error body when the read throws. -/
def getKccdata {α : Type} (fs : FileState α) : Except String α :=
  match fs with
  | some d => .ok d
  | none => .error "Error reading data"

/-- `app.post('/api/kccahdata')` (lines 110-125): same body as
`postKccdata`, against `kccahdata.json`. -/
def postKccahdata {α : Type} (_fs : FileState α) (newData : α) : (Nat × String) × FileState α :=
  ((201, "Data overwritten successfully."), some newData)

/-- `app.get('/api/kccahdata')` (lines 99-108): same body as
`getKccdata`, against `kccahdata.json`. -/
def getKccahdata {α : Type} (fs : FileState α) : Except String α :=
  match fs with
  | some d => .ok d
  | none => .error "Error reading data"

/-- The HTTP status of a read: 200 on success, 500 when `readJson`
threw (missing file or invalid JSON). -/
def readStatus {β : Type} : Except String β → Nat
  | .ok _ => 200
  | .error _ => 500

-- ================= Supabase `user_details` model =================

/-- A row of the external `user_details` table, with the columns the
server reads and writes: the identifier column `உ_எண்` (`uNumber`), the
name column `பெயர்` (`name`), the Aadhaar column `ஆதார்_எண்` (`aadhaar`),
`userjson`, and `loantype`.  `loantype` is `Option String` because the
column may be NULL; the handlers test it for JS truthiness. -/
structure UserRow where
  uNumber : String
  name : String
  aadhaar : String
  userjson : String
  loantype : Option String
  deriving Repr, DecidableEq

/-- JS `String.prototype.toLowerCase()` (for the ASCII values the
handlers compare with): lower-case every character. -/
def jsToLower (s : String) : String :=
  ⟨s.data.map Char.toLower⟩

/-- PostgREST `ilike('loantype', pat)` with a pattern free of wildcards:
case-insensitive equality against a non-NULL `loantype`; a NULL column
never matches. -/
def rowLoantypeILike (pat : String) (r : UserRow) : Bool :=
  match r.loantype with
  | some s => jsToLower s == jsToLower pat
  | none => false

/-- Response of the list-profiles endpoints: `{success, users, total}`
with status 200 on the non-error path. -/
structure UsersResp where
  status : Nat
  users : List UserRow
  total : Nat
  deriving Repr, DecidableEq

/-- `app.get('/get-all-users')` (lines 516-564) with `tag = "kcc"`, and
`app.get('/get-all-usersAH')` (466-514) with `tag = "kccah"`: when the
`loantype` query parameter is truthy and lower-cases to the endpoint's
tag, the query adds `ilike('loantype', tag)`; otherwise all rows are
selected.  `count: 'exact'` makes `count` the number of selected rows,
and the response carries `users = data` and `total = count`. -/
def getAllUsersWith (tag : String) (table : List UserRow) (loantypeQ : Option String) :
    UsersResp :=
  let rows :=
    match loantypeQ with
    | some lt => if lt ≠ "" ∧ jsToLower lt = tag then table.filter (rowLoantypeILike tag) else table
    | none => table
  ⟨200, rows, rows.length⟩

/-- `GET /get-all-users`: filter tag `kcc`. -/
def getAllUsers (table : List UserRow) (loantypeQ : Option String) : UsersResp :=
  getAllUsersWith "kcc" table loantypeQ

/-- `GET /get-all-usersAH`: filter tag `kccah`. -/
def getAllUsersAH (table : List UserRow) (loantypeQ : Option String) : UsersResp :=
  getAllUsersWith "kccah" table loantypeQ

/-- What the rows of C7's claim text would be: exactly the rows whose
loan-type column matches the SUPPLIED filter value case-insensitively.
Stated from the spec's words, for comparison with `getAllUsersWith`. -/
def usersMatchingSuppliedValue (lt : String) (table : List UserRow) : List UserRow :=
  table.filter (rowLoantypeILike lt)

/-- Response of the by-identifier profile endpoints: status plus the row
when one is returned (the 404/400 bodies carry only a message). -/
structure RowResp where
  status : Nat
  row : Option UserRow
  deriving Repr, DecidableEq

/-- PostgREST `.maybeSingle()` after `.eq('"உ_எண்"', u)`: the matching
row when exactly one matches, `none` for zero matches, an error when
several match. -/
def maybeSingleByUNumber (table : List UserRow) (u : String) : Except String (Option UserRow) :=
  match table.filter (fun r => r.uNumber == u) with
  | [] => .ok none
  | [r] => .ok (some r)
  | _ => .error "JSON object requested, multiple (or no) rows returned"

/-- `app.get('/api/user-data/:uNumber')` (lines 567-599) with
`tag = "KCC"`, and `app.get('/api/user-data-kccah/:uNumber')` (601-633)
with `tag = "KCCAH"`: select by `உ_எண்` with `maybeSingle`; 500 on a
query error, 404 when no row; then, when `data.loantype` is truthy and
differs from the tag, 400 without the row; otherwise 200 with the row. -/
def userDataWith (tag : String) (table : List UserRow) (uNumber : String) : RowResp :=
  match maybeSingleByUNumber table uNumber with
  | .error _ => ⟨500, none⟩
  | .ok none => ⟨404, none⟩
  | .ok (some row) =>
      match row.loantype with
      | some lt => if lt ≠ "" ∧ lt ≠ tag then ⟨400, none⟩ else ⟨200, some row⟩
      | none => ⟨200, some row⟩

/-- `GET /api/user-data/:uNumber`: expected tag `KCC`. -/
def userDataKcc (table : List UserRow) (uNumber : String) : RowResp :=
  userDataWith "KCC" table uNumber

/-- `GET /api/user-data-kccah/:uNumber`: expected tag `KCCAH`. -/
def userDataKccah (table : List UserRow) (uNumber : String) : RowResp :=
  userDataWith "KCCAH" table uNumber

/-- Request body of `POST /submit-user-data`: the destructured fields
`உ_எண்`, `பெயர்`, `ஆதார்_எண்`, `userjson`, `loantype`, `isUpdate`. -/
structure SubmitReq where
  userId : String
  userName : String
  aadhaar : String
  userjson : String
  loantype : Option String
  isUpdate : Bool
  deriving Repr, DecidableEq

/-- PostgREST `.single()` after `.eq('"உ_எண்"', u)`: the row when
exactly one matches, an error otherwise (zero or several). -/
def singleByUNumber (table : List UserRow) (u : String) : Except String UserRow :=
  match table.filter (fun r => r.uNumber == u) with
  | [r] => .ok r
  | _ => .error "JSON object requested, multiple (or no) rows returned"

/-- `app.post('/submit-user-data')` (lines 352-434).  With `isUpdate`
set: fetch the row by `உ_எண்` with `.single()`; when that errors or finds
nothing, 404 "User not found for update" with no write; otherwise update
name/aadhaar/userjson/loantype on every row matching the identifier and
answer 200.  Without `isUpdate`: insert a new row with those fields and
answer 200.  Returns the response status and the table afterwards. -/
def submitUserData (table : List UserRow) (req : SubmitReq) : Nat × List UserRow :=
  if req.isUpdate then
    match singleByUNumber table req.userId with
    | .error _ => (404, table)
    | .ok _ =>
        (200, table.map (fun r =>
          if r.uNumber == req.userId then
            { r with name := req.userName, aadhaar := req.aadhaar,
                     userjson := req.userjson, loantype := req.loantype }
          else r))
  else
    (200, table ++ [⟨req.userId, req.userName, req.aadhaar, req.userjson, req.loantype⟩])

-- ================= Helper lemmas =================

/-- If no record of `data` has key `k`, `findIndex` returns `none`. -/
lemma findIndex_eq_none_of_not_mem (data : List Record) (k : Int)
    (h : ∀ r ∈ data, r.key ≠ k) : findIndex (fun it => it.key == k) data = none := by
  induction data with
  | nil => rfl
  | cons x xs ih =>
      have hx : x.key ≠ k := h x (List.mem_cons_self x xs)
      have hxs : ∀ r ∈ xs, r.key ≠ k := fun r hr => h r (List.mem_cons_of_mem x hr)
      simp only [findIndex]
      rw [if_neg (by simpa using hx), ih hxs]
      rfl

/-- Appending one record steps the running max by the reduce's own rule. -/
lemma maxKey_append (data : List Record) (r : Record) :
    maxKey (data ++ [r]) = if r.key > maxKey data then r.key else maxKey data := by
  simp [maxKey, List.foldl_append]

/-- Creating a record raises the collection's max key to exactly the
freshly assigned id. -/
lemma maxKey_createRecord (data : List Record) (b : Body) :
    maxKey (createRecord data b).2 = maxKey data + 1 := by
  simp only [createRecord, stampKey]
  rw [maxKey_append]
  simp only [gt_iff_lt]
  rw [if_pos (by omega)]

/-- The response stream of a create sequence, relative to the starting
max key: the `n`-th create is a 201 carrying key `maxKey data + n + 1`
and the `n`-th body's payload. -/
lemma runCreates_getElem (bs : List Body) :
    ∀ (data : List Record) (n : Nat) (b : Body), bs[n]? = some b →
      (runCreates bs data)[n]? =
        some (.created ⟨maxKey data + (n : Int) + 1, b.payload⟩) := by
  induction bs with
  | nil => intro data n b h; simp at h
  | cons b0 bs ih =>
      intro data n b h
      cases n with
      | zero =>
          simp only [List.getElem?_cons_zero, Option.some_inj] at h
          subst h
          simp [runCreates, createRecord, stampKey]
      | succ n =>
          simp only [List.getElem?_cons_succ] at h
          have := ih (createRecord data b0).2 n b h
          rw [maxKey_createRecord] at this
          simp only [runCreates, List.getElem?_cons_succ]
          rw [this]
          congr 2
          push_cast
          ring_nf

-- ================= C1 =================

/-- **C1**: running any sequence of creates from the empty collection,
the `n`-th (0-indexed here, so carrying id `n + 1`) create answers 201
with the body stamped with id `n + 1`; and in general each create
assigns `1 + max(existing keys, default 0)`. -/
theorem nth_create_gets_id_n (bs : List Body) (n : Nat) (b : Body)
    (h : bs[n]? = some b) :
    (runCreates bs [])[n]? = some (.created ⟨(n : Int) + 1, b.payload⟩) ∧
    HResp.status (.created ⟨(n : Int) + 1, b.payload⟩) = 201 ∧
    ∀ (data : List Record) (b' : Body),
      createRecord data b' =
        (.created (stampKey (maxKey data + 1) b'), data ++ [stampKey (maxKey data + 1) b']) := by
  refine ⟨?_, rfl, fun data b' => rfl⟩
  have := runCreates_getElem bs [] n b h
  simpa [maxKey] using this

/-- Witness for C1: the spec's gold scenario — two creates on an empty
store; the second (index 1) answers 201 with id 2 and its own payload. -/
theorem nth_create_gets_id_n_witness :
    ([⟨none, "amount:5"⟩, ⟨none, "amount:7"⟩] : List Body)[1]? = some ⟨none, "amount:7"⟩ ∧
    (runCreates [⟨none, "amount:5"⟩, ⟨none, "amount:7"⟩] [])[1]? =
      some (.created ⟨(1 : Nat) + 1, "amount:7"⟩) :=
  ⟨by decide,
    (nth_create_gets_id_n [⟨none, "amount:5"⟩, ⟨none, "amount:7"⟩] 1 ⟨none, "amount:7"⟩
      (by decide)).1⟩

-- ================= C2 =================

/-- **C2**: the claim fails on the code off Vercel.  On a fresh local
start (no JSON files anywhere on disk), `initializeFiles` creates
`__dirname/components/data/gold.json` — not the `__dirname/gold.json`
that `GET /api/gold` reads — so the GET still takes the 500
read-failure branch; on Vercel the initialized `/tmp/gold.json` is the
handler's own file and the GET answers 200 with `[]`, which is what the
claim (and the evident purpose of `initializeFiles`) describes. -/
theorem fresh_local_start_list_errors :
    getCollection (dataFileContent false (initFilesGold false ⟨none, none, none⟩)) =
      .error "Failed to read data" ∧
    readStatus
      (getCollection (dataFileContent false (initFilesGold false ⟨none, none, none⟩))) = 500 ∧
    (initFilesGold false ⟨none, none, none⟩).dataDirFile = some [] ∧
    getCollection (dataFileContent true (initFilesGold true ⟨none, none, none⟩)) = .ok [] ∧
    readStatus
      (getCollection (dataFileContent true (initFilesGold true ⟨none, none, none⟩))) = 200 :=
  ⟨rfl, rfl, rfl, rfl, rfl⟩

-- ================= C6 =================

/-- **C6**: a whole-document write via `POST /api/kccdata` (resp.
`/api/kccahdata`) answers 201 and fully replaces the file, so a
subsequent `GET` returns exactly the posted payload, whatever the prior
file content was — no merge occurs. -/
theorem kcc_overwrite_roundtrip {α : Type} (p : α) (fs fs' : FileState α) :
    getKccdata (postKccdata fs p).2 = .ok p ∧
    (postKccdata fs p).1.1 = 201 ∧
    getKccahdata (postKccahdata fs' p).2 = .ok p ∧
    (postKccahdata fs' p).1.1 = 201 ∧
    (postKccdata fs p).2 = (postKccdata fs' p).2 ∧
    (postKccahdata fs' p).2 = (postKccahdata fs p).2 := by
  exact ⟨rfl, rfl, rfl, rfl, rfl, rfl⟩

-- ================= C3 helper lemmas =================

/-- The max-reduce never drops below its accumulator. -/
lemma le_foldl_maxKey (l : List Record) :
    ∀ a : Int, a ≤ l.foldl (fun m it => if it.key > m then it.key else m) a := by
  induction l with
  | nil => intro a; exact le_refl a
  | cons x xs ih =>
      intro a
      simp only [List.foldl_cons]
      refine le_trans ?_ (ih (if x.key > a then x.key else a))
      split <;> omega

/-- Every member's key is bounded by the max-reduce. -/
lemma key_le_foldl_maxKey (l : List Record) :
    ∀ (a : Int) (x : Record), x ∈ l →
      x.key ≤ l.foldl (fun m it => if it.key > m then it.key else m) a := by
  induction l with
  | nil => intro a x hx; simp at hx
  | cons y ys ih =>
      intro a x hx
      simp only [List.foldl_cons]
      rcases List.mem_cons.mp hx with h | h
      · subst h
        refine le_trans ?_ (le_foldl_maxKey ys _)
        split <;> omega
      · exact ih _ x h

/-- Every key present in a collection is at most `maxKey`. -/
lemma key_le_maxKey (data : List Record) (x : Record) (hx : x ∈ data) :
    x.key ≤ maxKey data :=
  key_le_foldl_maxKey data 0 x hx

/-- A create appends a key strictly above every existing key, so key
distinctness survives. -/
lemma nodup_key_createRecord (data : List Record) (b : Body)
    (h : (data.map Record.key).Nodup) :
    ((createRecord data b).2.map Record.key).Nodup := by
  simp only [createRecord, stampKey, List.map_append, List.map_cons, List.map_nil]
  rw [List.nodup_append]
  refine ⟨h, List.nodup_singleton _, ?_⟩
  intro a ha hb
  simp only [List.mem_singleton] at hb
  subst hb
  rcases List.mem_map.mp ha with ⟨x, hx, hkey⟩
  have := key_le_maxKey data x hx
  omega

/-- Replacing the record found by `findIndex(item => item.key === k)`
with a record stamped with the same `k` leaves the key list unchanged. -/
lemma map_key_set_of_findIndex :
    ∀ (data : List Record) (k : Int) (i : Nat) (p : String),
      findIndex (fun it => it.key == k) data = some i →
      ((data.set i ⟨k, p⟩).map Record.key) = data.map Record.key := by
  intro data
  induction data with
  | nil => intro k i p h; simp [findIndex] at h
  | cons x xs ih =>
      intro k i p h
      simp only [findIndex] at h
      by_cases hx : x.key == k
      · rw [if_pos hx] at h
        injection h with h'
        subst h'
        simp only [List.set_cons_zero, List.map_cons]
        have hk : x.key = k := by simpa using hx
        rw [hk]
      · rw [if_neg hx] at h
        rcases Option.map_eq_some'.mp h with ⟨j, hj, hij⟩
        subst hij
        simp only [List.set_cons_succ, List.map_cons]
        rw [ih k j p hj]

/-- `splice(i, 1)` commutes with projecting the keys. -/
lemma map_key_eraseIdx :
    ∀ (data : List Record) (i : Nat),
      (data.eraseIdx i).map Record.key = (data.map Record.key).eraseIdx i := by
  intro data
  induction data with
  | nil => intro i; simp
  | cons x xs ih =>
      intro i
      cases i with
      | zero => simp [List.eraseIdx]
      | succ j => simp [List.eraseIdx, ih j]

/-- One handler call preserves distinctness of the identifying keys. -/
lemma applyOp_preserves_nodup_key (data : List Record) (op : Op)
    (h : (data.map Record.key).Nodup) :
    ((applyOp data op).map Record.key).Nodup := by
  cases op with
  | create b => exact nodup_key_createRecord data b h
  | put k b =>
      simp only [applyOp, putRecord]
      cases hf : findIndex (fun it => it.key == k) data with
      | none => simpa using h
      | some i =>
          simp only [stampKey]
          rw [map_key_set_of_findIndex data k i b.payload hf]
          exact h
  | del k =>
      simp only [applyOp, deleteRecord]
      cases hf : findIndex (fun it => it.key == k) data with
      | none => simpa using h
      | some i =>
          simp only []
          rw [map_key_eraseIdx]
          exact List.Nodup.sublist (List.eraseIdx_sublist _ _) h

/-- A whole history of handler calls preserves key distinctness. -/
lemma applyOps_preserves_nodup_key :
    ∀ (ops : List Op) (data : List Record),
      (data.map Record.key).Nodup → ((applyOps ops data).map Record.key).Nodup := by
  intro ops
  induction ops with
  | nil => intro data h; simpa [applyOps] using h
  | cons op ops ih =>
      intro data h
      simp only [applyOps, List.foldl_cons]
      exact ih (applyOp data op) (applyOp_preserves_nodup_key data op h)

-- ================= C3 =================

/-- **C3**: starting from an empty collection, after any sequential
history of create / replace-by-id / delete-by-id handler calls the
identifying-field values stored in the file are pairwise distinct. -/
theorem keys_pairwise_distinct_after_ops (ops : List Op) :
    ((applyOps ops []).map Record.key).Nodup :=
  applyOps_preserves_nodup_key ops [] (by simp)

-- ================= C4 =================

/-- **C4**: replace-by-id on a present id returns status 200 with the
body re-stamped to the path id (any identifying-field value the body
supplied is ignored), and stores exactly that re-stamped record at the
found position; shown for `PUT /api/gold/:id` and `PUT /api/crops/:id`,
the handlers the claim cites. -/
theorem put_restamps_key_from_path (data : List Record) (k : Int) (b : Body) (i : Nat)
    (h : findIndex (fun it => it.key == k) data = some i) :
    putGold data k b = (.ok ⟨k, b.payload⟩, data.set i ⟨k, b.payload⟩, true) ∧
    putCrops data k b = (.ok ⟨k, b.payload⟩, data.set i ⟨k, b.payload⟩, true) ∧
    HResp.status (.ok ⟨k, b.payload⟩) = 200 ∧
    (∀ bk bk' : Option Int, putGold data k ⟨bk, b.payload⟩ = putGold data k ⟨bk', b.payload⟩) := by
  refine ⟨?_, ?_, rfl, fun bk bk' => rfl⟩ <;>
    simp [putGold, putCrops, putRecord, h, stampKey]

/-- Witness for C4 at a concrete store and request. -/
theorem put_restamps_key_from_path_witness :
    findIndex (fun it => it.key == 1) [⟨1, "old"⟩] = some 0 ∧
    putGold [⟨1, "old"⟩] 1 ⟨some 99, "new"⟩ =
      (.ok ⟨1, "new"⟩, [⟨1, "old"⟩].set 0 ⟨1, "new"⟩, true) :=
  ⟨by decide, (put_restamps_key_from_path [⟨1, "old"⟩] 1 ⟨some 99, "new"⟩ 0 (by decide)).1⟩

-- ================= C5 =================

/-- **C5**: replace-by-id and delete-by-id on an id absent from the
collection answer 404 with the collection's not-found error body, leave
the file content unchanged, and perform no write, for all three
per-record collections. -/
theorem put_delete_absent_id_404_no_write (data : List Record) (k : Int) (b : Body)
    (h : ∀ r ∈ data, r.key ≠ k) :
    putGold data k b = (.notFound "Record not found", data, false) ∧
    putAnimal data k b = (.notFound "Animal record not found", data, false) ∧
    putCrops data k b = (.notFound "Crop record not found", data, false) ∧
    deleteGold data k = (.notFound "Record not found", data, false) ∧
    deleteAnimal data k = (.notFound "Animal record not found", data, false) ∧
    deleteCrops data k = (.notFound "Crop record not found", data, false) ∧
    HResp.status (.notFound "Animal record not found") = 404 := by
  have hnone := findIndex_eq_none_of_not_mem data k h
  refine ⟨?_, ?_, ?_, ?_, ?_, ?_, rfl⟩ <;>
    simp [putGold, putAnimal, putCrops, deleteGold, deleteAnimal, deleteCrops,
      putRecord, deleteRecord, hnone]

/-- Witness for C5: DELETE `/api/animal/1` against a store holding only
id 2 answers 404 `{error: 'Animal record not found'}` without mutating
the file. -/
theorem put_delete_absent_id_404_no_write_witness :
    (∀ r ∈ ([⟨2, "cow"⟩] : List Record), r.key ≠ 1) ∧
    deleteAnimal [⟨2, "cow"⟩] 1 = (.notFound "Animal record not found", [⟨2, "cow"⟩], false) :=
  ⟨by decide,
    (put_delete_absent_id_404_no_write [⟨2, "cow"⟩] 1 ⟨none, ""⟩ (by decide)).2.2.2.2.1⟩

-- ================= C7 =================

/-- **C7 counterexample**: with one stored row whose loan-type is
`"KCC"`, `GET /get-all-users?loantype=gold` returns all rows, not the
rows whose loan-type matches the supplied value `"gold"`
case-insensitively (there are none), so the claim as stated is false. -/
theorem getAllUsers_filter_claim_false :
    (getAllUsers [⟨"1", "n", "a", "j", some "KCC"⟩] (some "gold")).users ≠
      usersMatchingSuppliedValue "gold" [⟨"1", "n", "a", "j", some "KCC"⟩] := by
  decide

/-- **C7 (amended)**: the rows are filtered — case-insensitively against
the endpoint's fixed tag — exactly when the supplied loan-type value is
non-empty and lower-cases to that tag (`kcc` for `/get-all-users`,
`kccah` for `/get-all-usersAH`); any other supplied value, like no value
at all, returns every row; in all cases the response is a 200 whose
`total` is the number of returned rows. -/
theorem getAllUsers_filter_behavior (table : List UserRow) (lt : String) (q : Option String)
    (hlt : lt ≠ "") :
    ((jsToLower lt = "kcc" →
        (getAllUsers table (some lt)).users = table.filter (rowLoantypeILike "kcc")) ∧
      (jsToLower lt ≠ "kcc" → (getAllUsers table (some lt)).users = table)) ∧
    ((jsToLower lt = "kccah" →
        (getAllUsersAH table (some lt)).users = table.filter (rowLoantypeILike "kccah")) ∧
      (jsToLower lt ≠ "kccah" → (getAllUsersAH table (some lt)).users = table)) ∧
    (getAllUsers table none).users = table ∧
    (getAllUsersAH table none).users = table ∧
    (getAllUsers table q).total = (getAllUsers table q).users.length ∧
    (getAllUsersAH table q).total = (getAllUsersAH table q).users.length ∧
    (getAllUsers table q).status = 200 ∧
    (getAllUsersAH table q).status = 200 := by
  refine ⟨⟨fun h => ?_, fun h => ?_⟩, ⟨fun h => ?_, fun h => ?_⟩,
    rfl, rfl, rfl, rfl, rfl, rfl⟩ <;>
    simp [getAllUsers, getAllUsersAH, getAllUsersWith, hlt, h]

/-- Witness for C7 (amended): a supplied value `"KCC"` lower-cases to
the `/get-all-users` tag, so the one `kcc` row is returned. -/
theorem getAllUsers_filter_behavior_witness :
    ("KCC" : String) ≠ "" ∧
    (getAllUsers [⟨"1", "n", "a", "j", some "kcc"⟩] (some "KCC")).users =
      [⟨"1", "n", "a", "j", some "kcc"⟩].filter (rowLoantypeILike "kcc") :=
  ⟨by decide,
    (getAllUsers_filter_behavior [⟨"1", "n", "a", "j", some "kcc"⟩] "KCC" none
      (by decide)).1.1 (by decide)⟩

-- ================= C8 =================

/-- **C8**: the by-identifier profile endpoints answer 404 when no row
matches the identifier, and when the (unique) matching row carries a
loan-type value that is non-empty and differs from the endpoint's tag
(`KCC` resp. `KCCAH`) they answer 400 without the row. -/
theorem user_data_wrong_loantype_rejected (table : List UserRow) (u : String) :
    (table.filter (fun r => r.uNumber == u) = [] →
      userDataKcc table u = ⟨404, none⟩ ∧ userDataKccah table u = ⟨404, none⟩) ∧
    (∀ (row : UserRow) (lt : String),
      table.filter (fun r => r.uNumber == u) = [row] →
      row.loantype = some lt → lt ≠ "" →
      (lt ≠ "KCC" → userDataKcc table u = ⟨400, none⟩) ∧
      (lt ≠ "KCCAH" → userDataKccah table u = ⟨400, none⟩)) := by
  constructor
  · intro hf
    constructor <;>
      simp [userDataKcc, userDataKccah, userDataWith, maybeSingleByUNumber, hf]
  · intro row lt hf hlt hne
    constructor <;> intro hk <;>
      simp [userDataKcc, userDataKccah, userDataWith, maybeSingleByUNumber, hf, hlt, hne, hk]

/-- Witness for C8: the spec's scenario — the stored row for identifier
`42` has loan-type `"KCC"`, so `GET /api/user-data-kccah/42` answers 400
without the row; and an identifier with no row answers 404. -/
theorem user_data_wrong_loantype_rejected_witness :
    ([⟨"42", "n", "a", "j", some "KCC"⟩] : List UserRow).filter
        (fun r => r.uNumber == "42") = [⟨"42", "n", "a", "j", some "KCC"⟩] ∧
    userDataKccah [⟨"42", "n", "a", "j", some "KCC"⟩] "42" = ⟨400, none⟩ ∧
    userDataKcc ([] : List UserRow) "7" = ⟨404, none⟩ :=
  ⟨by decide,
    ((user_data_wrong_loantype_rejected [⟨"42", "n", "a", "j", some "KCC"⟩] "42").2
      ⟨"42", "n", "a", "j", some "KCC"⟩ "KCC" (by decide) rfl (by decide)).2 (by decide),
    ((user_data_wrong_loantype_rejected ([] : List UserRow) "7").1 (by decide)).1⟩

-- ================= C9 =================

/-- **C9**: `POST /submit-user-data` with the update flag set and an
identifier matching no stored row answers 404 and leaves the table
untouched (no insert, no update); with the flag set it never inserts
(the row count is preserved); a new row is inserted exactly when the
flag is not set. -/
theorem update_missing_user_404_no_insert (table : List UserRow) (req : SubmitReq) :
    (req.isUpdate = true → table.filter (fun r => r.uNumber == req.userId) = [] →
      submitUserData table req = (404, table)) ∧
    (req.isUpdate = true → (submitUserData table req).2.length = table.length) ∧
    (req.isUpdate = false →
      submitUserData table req =
        (200, table ++ [⟨req.userId, req.userName, req.aadhaar, req.userjson, req.loantype⟩])) := by
  refine ⟨fun hu hf => ?_, fun hu => ?_, fun hu => ?_⟩
  · simp [submitUserData, hu, singleByUNumber, hf]
  · simp only [submitUserData, hu, if_true]
    cases hs : singleByUNumber table req.userId with
    | error e => rfl
    | ok r => simp
  · simp [submitUserData, hu]

/-- Witness for C9: an update for identifier `9` against an empty table
answers 404 with nothing written. -/
theorem update_missing_user_404_no_insert_witness :
    (⟨"9", "nm", "ad", "js", some "KCC", true⟩ : SubmitReq).isUpdate = true ∧
    ([] : List UserRow).filter (fun r => r.uNumber == "9") = [] ∧
    submitUserData [] ⟨"9", "nm", "ad", "js", some "KCC", true⟩ = (404, []) :=
  ⟨rfl, by decide,
    (update_missing_user_404_no_insert [] ⟨"9", "nm", "ad", "js", some "KCC", true⟩).1
      rfl (by decide)⟩

-- ================= C10 =================

/-- **C10**: when the (unique) matching row's loan-type column is NULL
or the empty string, both by-identifier endpoints skip the loan-type
check (it is guarded by JS truthiness) and answer 200 with the row. -/
theorem untyped_loantype_returns_row (table : List UserRow) (u : String) (row : UserRow)
    (hf : table.filter (fun r => r.uNumber == u) = [row])
    (hlt : row.loantype = none ∨ row.loantype = some "") :
    userDataKcc table u = ⟨200, some row⟩ ∧ userDataKccah table u = ⟨200, some row⟩ := by
  rcases hlt with h | h <;>
    constructor <;>
      simp [userDataKcc, userDataKccah, userDataWith, maybeSingleByUNumber, hf, h]

/-- Witness for C10: a row with a NULL loan-type is returned with 200 by
both endpoints. -/
theorem untyped_loantype_returns_row_witness :
    ([⟨"5", "n", "a", "j", none⟩] : List UserRow).filter
        (fun r => r.uNumber == "5") = [⟨"5", "n", "a", "j", none⟩] ∧
    userDataKcc [⟨"5", "n", "a", "j", none⟩] "5" = ⟨200, some ⟨"5", "n", "a", "j", none⟩⟩ :=
  ⟨by decide,
    (untyped_loantype_returns_row [⟨"5", "n", "a", "j", none⟩] "5" ⟨"5", "n", "a", "j", none⟩
      (by decide) (Or.inl rfl)).1⟩

end AdminBackend
